import Mathlib

/-!
Verification development for the CPSC433 sports-league scheduler.

The Python sources are shallowly embedded below.  Mutable global state
(the `Layout` class) becomes an explicit `Layout` structure threaded
through every function; the mutable `Schedule` object becomes a record
updated by pure functions.  `Schedule.py` and `IO/Parser.py` are imported
by the sources but absent from the repository; the pieces of them that
the claims need are modelled from the specification and are marked as
such in their doc comments.
-/

/-- Embeds `Enumerations.ActivityType`. -/
inductive ActivityType where
  | GAME
  | PRACTICE
deriving DecidableEq, Repr

/-- Embeds `Enumerations.Weekday`. -/
inductive Weekday where
  | MO
  | TU
  | FR
deriving DecidableEq, Repr

/-- `Weekday.value`: the string value carried by the Python enum member. -/
def weekdayValue : Weekday → String
  | Weekday.MO => "MO"
  | Weekday.TU => "TU"
  | Weekday.FR => "FR"

/-- A slot identity: the triple `(kind, weekday, start_time)` used as dict key
throughout the sources (`GameSlot.id` / `PracticeSlot.id`). -/
abbrev SlotId := ActivityType × Weekday × String

/-- Activity identities are opaque strings. -/
abbrev ActivityId := String

/-- Embeds the common data of `Games.Game` and `Practices.Practice`.
`division` is an `int` in the sources but is only ever inspected through
`str(division)`; we carry that string, with `none` standing for Python
`None`. -/
structure Activity where
  id : ActivityId
  association : String
  age : String
  tier : String
  division : Option String
  ACTIVITY_TYPE : ActivityType
deriving DecidableEq, Repr

/-- Embeds the slot records of `Games.GameSlot` and `Practices.PracticeSlot`.
A game slot uses the `game*` capacity fields, a practice slot the
`practice*` fields; the unused pair is irrelevant junk, as in the Python
objects where the attribute simply does not exist. -/
structure Slot where
  weekday : Weekday
  start_time : String
  end_time : String
  is_evening_slot : Bool
  gamemax : Nat
  gamemin : Nat
  practicemax : Nat
  practicemin : Nat
  overlaps : List SlotId
deriving DecidableEq, Repr

/-- Association-list lookup, embedding Python `dict[key]` /
`key in dict` probes on the finitely populated `Layout` dictionaries. -/
def alookup {α β : Type} [DecidableEq α] : List (α × β) → α → Option β
  | [], _ => none
  | (k, v) :: rest, a => if a = k then some v else alookup rest a

/-- Embeds the process-wide mutable class `Search.Layout.Layout` as an
immutable record: by the time the search runs, the parser has fully
populated it and it is never mutated again (spec section 4.1).  Dict-valued
fields that the code probes with `in` become association lists; dict fields
only ever indexed on present keys become total functions. -/
structure Layout where
  SPECIAL_BOOKINGS : List (ActivityId × SlotId)
  PARTASSIGN : List (ActivityId × SlotId)
  NOT_COMPATIBLE : ActivityId → List ActivityId
  UNWANTED : ActivityId → List SlotId
  PREFERENCES : ActivityId → List (SlotId × Int)
  PAIR : ActivityId → List ActivityId
  W_MINFILLED : Int
  W_PREF : Int
  W_PAIR : Int
  W_SECDIFF : Int
  PEN_GAMEMIN : Int
  PEN_PRACTICEMIN : Int
  PEN_NOTPAIRED : Int
  PEN_SECTION : Int
  SLOT_ID_TO_OBJ : SlotId → Slot
  ACTIVITY_ID_TO_OBJ : ActivityId → Activity
  GAME_ID_TO_OBJ : ActivityId → Activity
  GAME_IDS : List ActivityId
  PRACTICE_IDS : List ActivityId
  GAME_SLOT_IDS : List SlotId
  PRACTICE_SLOT_IDS : List SlotId

/-- Modelled from the spec: the schedule state of the missing `Schedule.py`
(spec section 3, "Schedule State (C2)").  `slot_of_each_activity` is the
insertion-ordered dict iterated by the printer; `assignments` maps every
slot id to the list of activity ids currently in it. -/
structure Schedule where
  assignments : SlotId → List ActivityId
  slot_of_each_activity : List (ActivityId × SlotId)
  remaining_games : List ActivityId
  remaining_practices : List ActivityId
  vacant_game_slots : List SlotId
  vacant_practice_slots : List SlotId
  eval : Int
  latest_assignment : Option (ActivityId × SlotId)

/-- The slot currently assigned to an activity (partial function). -/
def slotOf (s : Schedule) (a : ActivityId) : Option SlotId :=
  alookup s.slot_of_each_activity a

/-- Modelled from the spec: the empty schedule built by `Schedule()`
(spec section 3: empty assignments, all activities remaining, vacant sets
hold the slots with positive capacity, `eval = 0`). -/
def emptySchedule (env : Layout) : Schedule where
  assignments := fun _ => []
  slot_of_each_activity := []
  remaining_games := env.GAME_IDS
  remaining_practices := env.PRACTICE_IDS
  vacant_game_slots := env.GAME_SLOT_IDS.filter (fun sl => 0 < (env.SLOT_ID_TO_OBJ sl).gamemax)
  vacant_practice_slots := env.PRACTICE_SLOT_IDS.filter (fun sl => 0 < (env.SLOT_ID_TO_OBJ sl).practicemax)
  eval := 0
  latest_assignment := none

/-- Modelled from the spec: `Schedule.assign_activity` (spec section 4.2):
add the activity to `assignments[slot_id]`, record the inverse mapping,
drop the activity from the remaining lists, and remove the slot from its
vacant set once it reaches its capacity. -/
def assign_activity (env : Layout) (s : Schedule) (activity_id : ActivityId) (slot_id : SlotId) : Schedule :=
  let newAssignments : SlotId → List ActivityId :=
    fun sl => if sl = slot_id then s.assignments sl ++ [activity_id] else s.assignments sl
  let cap : Nat :=
    if slot_id.1 = ActivityType.GAME then (env.SLOT_ID_TO_OBJ slot_id).gamemax
    else (env.SLOT_ID_TO_OBJ slot_id).practicemax
  let reached : Prop := cap ≤ (newAssignments slot_id).length
  { s with
    assignments := newAssignments
    slot_of_each_activity := s.slot_of_each_activity ++ [(activity_id, slot_id)]
    remaining_games := s.remaining_games.erase activity_id
    remaining_practices := s.remaining_practices.erase activity_id
    vacant_game_slots :=
      if slot_id.1 = ActivityType.GAME ∧ reached then s.vacant_game_slots.erase slot_id
      else s.vacant_game_slots
    vacant_practice_slots :=
      if slot_id.1 = ActivityType.PRACTICE ∧ reached then s.vacant_practice_slots.erase slot_id
      else s.vacant_practice_slots }

/-- `is_complete` (spec section 4.2) / the completeness test of
`Node.check_sol`: both remaining lists are empty. -/
def isComplete (s : Schedule) : Bool :=
  s.remaining_games.isEmpty && s.remaining_practices.isEmpty

/-- Split a character list at every occurrence of the separator, the
kernel-computable core of Python `str.split`. -/
def splitOnChar (c : Char) : List Char → List (List Char)
  | [] => [[]]
  | x :: xs =>
    let r := splitOnChar c xs
    if x = c then [] :: r
    else
      match r with
      | [] => [[x]]
      | y :: ys => (x :: y) :: ys

/-- Parse a decimal digit string, the kernel-computable core of Python
`int(...)`; `none` corresponds to `ValueError`. -/
def digitsToNatAux (acc : Nat) : List Char → Option Nat
  | [] => some acc
  | c :: cs => if c.isDigit then digitsToNatAux (acc * 10 + (c.toNat - 48)) cs else none

/-- Parse a nonempty decimal digit string. -/
def parseNat (l : List Char) : Option Nat :=
  match l with
  | [] => none
  | _ => digitsToNatAux 0 l

/-- Embeds the local helper `time_str_to_int` of
`Layout.pre_parser_initialization`.  Strings that do not parse raise
`ValueError` in the source; they never occur in the slot grid, and the
junk value 0 is never reached on the inputs used below. -/
def timeStrToInt (t : String) : Nat :=
  match splitOnChar ':' t.data with
  | [h, m] =>
    match parseNat h, parseNat m with
    | some hh, some mm => hh * 60 + mm
    | _, _ => 0
  | _ => 0

/-- Modelled from the spec: `Parser.decide_if_evening_slot` (the file
`IO/Parser.py` is absent).  Per spec section 3 an evening slot is one with
`start_time >= 18:00`; this matches the identical local helper inside
`Layout.pre_parser_initialization`. -/
def decideIfEveningSlot (t : String) : Bool :=
  1080 ≤ timeStrToInt t

namespace HardConstraints

/-- `HardConstraints.GeneralConstraints.game_max`. -/
def game_max (env : Layout) (s : Schedule) (asg : ActivityId × SlotId) : Bool :=
  let slot_id := asg.2
  if slot_id.1 ≠ ActivityType.GAME then true
  else if (env.SLOT_ID_TO_OBJ slot_id).gamemax ≤ (s.assignments slot_id).length then false
  else true

/-- `HardConstraints.GeneralConstraints.practice_max`. -/
def practice_max (env : Layout) (s : Schedule) (asg : ActivityId × SlotId) : Bool :=
  let slot_id := asg.2
  if slot_id.1 ≠ ActivityType.PRACTICE then true
  else if (env.SLOT_ID_TO_OBJ slot_id).practicemax ≤ (s.assignments slot_id).length then false
  else true

/-- `HardConstraints.GeneralConstraints.gp_same_slot`: no activity in an
overlapping slot may share the full `(association, age, tier, division)`
tuple with the candidate, unless both are practices. -/
def gp_same_slot (env : Layout) (s : Schedule) (asg : ActivityId × SlotId) : Bool :=
  let activity_obj := env.ACTIVITY_ID_TO_OBJ asg.1
  let slot_obj := env.SLOT_ID_TO_OBJ asg.2
  slot_obj.overlaps.all fun overlapping_slot =>
    (s.assignments overlapping_slot).all fun act_id =>
      let act_obj := env.ACTIVITY_ID_TO_OBJ act_id
      if activity_obj.ACTIVITY_TYPE = ActivityType.PRACTICE ∧ act_obj.ACTIVITY_TYPE = ActivityType.PRACTICE then
        true
      else
        !(decide (activity_obj.association = act_obj.association) &&
          decide (activity_obj.age = act_obj.age) &&
          decide (activity_obj.tier = act_obj.tier) &&
          decide (activity_obj.division = act_obj.division))

/-- `HardConstraints.GeneralConstraints.not_compatible`. -/
def not_compatible (env : Layout) (s : Schedule) (asg : ActivityId × SlotId) : Bool :=
  (s.assignments asg.2).all fun id => !(decide (id ∈ env.NOT_COMPATIBLE asg.1))

/-- `HardConstraints.GeneralConstraints.part_assign`. -/
def part_assign (env : Layout) (s : Schedule) (asg : ActivityId × SlotId) : Bool :=
  match alookup env.PARTASSIGN asg.1 with
  | none => true
  | some sl => decide (asg.2 = sl)

/-- `HardConstraints.GeneralConstraints.unwanted`. -/
def unwanted (env : Layout) (s : Schedule) (asg : ActivityId × SlotId) : Bool :=
  (env.UNWANTED asg.1).all fun sl => !(decide (asg.2 = sl))

/-- `HardConstraints.GeneralConstraints.check_general_constraints`. -/
def check_general_constraints (env : Layout) (s : Schedule) (asg : ActivityId × SlotId) : Bool :=
  let passes :=
    if asg.2.1 = ActivityType.GAME then game_max env s asg else practice_max env s asg
  passes && gp_same_slot env s asg && not_compatible env s asg &&
    part_assign env s asg && unwanted env s asg

/-- `HardConstraints.CityConstraints.evening_slot_constraint`: an activity
whose division string starts with the character `9` may only go in an
evening slot.  A `None` division yields `str(None)[0] = N`, not `9`, so
the constraint passes; the caller guards on `division is not None` anyway. -/
def evening_slot_constraint (env : Layout) (s : Schedule) (asg : ActivityId × SlotId) : Bool :=
  match (env.ACTIVITY_ID_TO_OBJ asg.1).division with
  | some d => if d.front = '9' then decideIfEveningSlot asg.2.2.2 else true
  | none => true

/-- The mutually exclusive age groups of
`HardConstraints.CityConstraints.age_group_constraint`. -/
def MUTEX_AGES : List String := ["U15", "U16", "U17", "U19"]

/-- `HardConstraints.CityConstraints.age_group_constraint` (games only). -/
def age_group_constraint (env : Layout) (s : Schedule) (asg : ActivityId × SlotId) : Bool :=
  if asg.2.1 ≠ ActivityType.GAME then true
  else
    let age_a := (env.GAME_ID_TO_OBJ asg.1).age
    if ¬(age_a ∈ MUTEX_AGES) then true
    else (s.assignments asg.2).all fun act_id =>
      if act_id = asg.1 then true
      else !(decide ((env.GAME_ID_TO_OBJ act_id).age ∈ MUTEX_AGES))

/-- `HardConstraints.CityConstraints.special_bookings_constraint` (games
only): a CMSA U12/U13 T1 game in `SPECIAL_BOOKINGS` may only take its
designated slot; one outside `SPECIAL_BOOKINGS` may not join the slot
holding the matching sentinel practice.  The final `else` is the
unreachable `raise` branch of the source (the age guard above has already
restricted to U12 or U13). -/
def special_bookings_constraint (env : Layout) (s : Schedule) (asg : ActivityId × SlotId) : Bool :=
  let act_obj := env.ACTIVITY_ID_TO_OBJ asg.1
  if act_obj.ACTIVITY_TYPE ≠ ActivityType.GAME then true
  else if act_obj.association ≠ "CMSA" ∨ ¬(act_obj.age = "U12" ∨ act_obj.age = "U13") ∨ act_obj.tier ≠ "T1" then true
  else
    match alookup env.SPECIAL_BOOKINGS asg.1 with
    | some sl => decide (asg.2 = sl)
    | none =>
      if act_obj.age = "U12" then !((s.assignments asg.2).contains "CMSA U12T1S")
      else if act_obj.age = "U13" then !((s.assignments asg.2).contains "CMSA U13T1S")
      else true

/-- `HardConstraints.CityConstraints.check_city_constraints`. -/
def check_city_constraints (env : Layout) (s : Schedule) (asg : ActivityId × SlotId) : Bool :=
  let passes :=
    if asg.2.1 = ActivityType.GAME then
      age_group_constraint env s asg && special_bookings_constraint env s asg
    else true
  match (env.ACTIVITY_ID_TO_OBJ asg.1).division with
  | some _ => passes && evening_slot_constraint env s asg
  | none => passes

/-- `HardConstraints.check_constraints`, restricted to a well-formed slot
id (first component a genuine `ActivityType`); the dynamic type check of
the source is embedded separately as `check_constraints_raw`. -/
def check_constraints (env : Layout) (s : Schedule) (asg : ActivityId × SlotId) : Bool :=
  check_general_constraints env s asg && check_city_constraints env s asg

/-- The raw first component of a slot-id tuple as the untyped Python code
sees it: a genuine `ActivityType` member, or any other value. -/
inductive RawTag where
  | game
  | practice
  | other (repr : String)
deriving DecidableEq, Repr

/-- A slot id as `HardConstraints.check_constraints` receives it, before
the dynamic type check on its first component. -/
abbrev RawSlotId := RawTag × Weekday × String

/-- `HardConstraints.check_constraints` including its dynamic type check:
`raise TypeError` on a malformed first component becomes `Except.error`,
issued before any constraint predicate is evaluated. -/
def check_constraints_raw (env : Layout) (s : Schedule) (activity_id : ActivityId) (r : RawSlotId) : Except String Bool :=
  match r.1 with
  | RawTag.game => Except.ok (check_constraints env s (activity_id, (ActivityType.GAME, r.2.1, r.2.2)))
  | RawTag.practice => Except.ok (check_constraints env s (activity_id, (ActivityType.PRACTICE, r.2.1, r.2.2)))
  | RawTag.other _ => Except.error "TypeError: Activity must be of type Game or Practice."

end HardConstraints

namespace SoftConstraints

/-- `SoftConstraints.GeneralConstraints.game_min`: reward for a game
assignment into a slot whose current population is still below `gamemin`. -/
def game_min (env : Layout) (s : Schedule) (la : ActivityId × SlotId) : Int :=
  let slot_id := la.2
  if slot_id.1 = ActivityType.PRACTICE then 0
  else
    let slot_obj := env.SLOT_ID_TO_OBJ slot_id
    if (s.assignments slot_id).length < slot_obj.gamemin then -env.PEN_GAMEMIN else 0

/-- `SoftConstraints.GeneralConstraints.practice_min`. -/
def practice_min (env : Layout) (s : Schedule) (la : ActivityId × SlotId) : Int :=
  let slot_id := la.2
  if slot_id.1 = ActivityType.GAME then 0
  else
    let slot_obj := env.SLOT_ID_TO_OBJ slot_id
    if (s.assignments slot_id).length < slot_obj.practicemin then -env.PEN_PRACTICEMIN else 0

/-- `SoftConstraints.GeneralConstraints.preference`. -/
def preference (env : Layout) (s : Schedule) (la : ActivityId × SlotId) : Int :=
  (env.PREFERENCES la.1).foldl
    (fun delta_penalty p => if la.2 = p.1 then delta_penalty - p.2 else delta_penalty) 0

/-- `SoftConstraints.GeneralConstraints.pair`. -/
def pair (env : Layout) (s : Schedule) (la : ActivityId × SlotId) : Int :=
  (env.PAIR la.1).foldl
    (fun delta_penalty b =>
      if b ∈ s.remaining_games ∨ b ∈ s.remaining_practices then delta_penalty
      else if b ∈ s.assignments la.2 then delta_penalty
      else delta_penalty + env.PEN_NOTPAIRED) 0

/-- `SoftConstraints.check_city_constraint`: the section penalty for other
games in the slot with identical `(age, tier, association)`. -/
def check_city_constraint (env : Layout) (s : Schedule) (la : ActivityId × SlotId) : Int :=
  if la.2.1 ≠ ActivityType.GAME then 0
  else
    let activity_obj := env.GAME_ID_TO_OBJ la.1
    (s.assignments la.2).foldl
      (fun delta_penalty act_id =>
        let act_obj := env.GAME_ID_TO_OBJ act_id
        if activity_obj.age = act_obj.age ∧ activity_obj.tier = act_obj.tier ∧
            activity_obj.association = act_obj.association then
          delta_penalty + env.PEN_SECTION
        else delta_penalty) 0

/-- `SoftConstraints.get_delta_eval`: weighted sum of the five components. -/
def get_delta_eval (env : Layout) (s : Schedule) (la : ActivityId × SlotId) : Int :=
  game_min env s la * env.W_MINFILLED +
  practice_min env s la * env.W_MINFILLED +
  preference env s la * env.W_PREF +
  pair env s la * env.W_PAIR +
  check_city_constraint env s la * env.W_SECDIFF

end SoftConstraints

namespace SearchModel

/-- The body of `SearchModel.generate_schedules` for a single assignment:
copy the parent, add the delta (computed on the copy, which still equals
the parent state), apply the assignment, record `latest_assignment`. -/
def mkChild (env : Layout) (s : Schedule) (p : ActivityId × SlotId) : Schedule :=
  let s1 := { s with eval := s.eval + SoftConstraints.get_delta_eval env s p }
  let s2 := assign_activity env s1 p.1 p.2
  { s2 with latest_assignment := some p }

/-- `SearchModel.generate_schedules`. -/
def generate_schedules (env : Layout) (s : Schedule) (assignments : List (ActivityId × SlotId)) : List Schedule :=
  assignments.map (mkChild env s)

/-- The candidate-assignment enumeration of `SearchModel.div`: games in
`SPECIAL_BOOKINGS` are proposed only at their booked slot, other games at
every vacant game slot, practices at every vacant practice slot; each
proposal is filtered through the hard constraints. -/
def divAssignments (env : Layout) (s : Schedule) : List (ActivityId × SlotId) :=
  (s.remaining_games.flatMap fun game_id =>
    match alookup env.SPECIAL_BOOKINGS game_id with
    | some sl =>
      if HardConstraints.check_constraints env s (game_id, sl) then [(game_id, sl)] else []
    | none =>
      (s.vacant_game_slots.filter fun slot_id =>
        HardConstraints.check_constraints env s (game_id, slot_id)).map fun slot_id => (game_id, slot_id))
  ++
  (s.remaining_practices.flatMap fun practice_id =>
    (s.vacant_practice_slots.filter fun slot_id =>
      HardConstraints.check_constraints env s (practice_id, slot_id)).map fun slot_id => (practice_id, slot_id))

/-- `SearchModel.div`: all child schedules of a schedule. -/
def div (env : Layout) (s : Schedule) : List Schedule :=
  generate_schedules env s (divAssignments env s)

end SearchModel

/-- The schedules the search can reach: the empty root schedule, and every
child produced by `SearchModel.div` from a reachable schedule. -/
inductive Reachable (env : Layout) : Schedule → Prop where
  | base : Reachable env (emptySchedule env)
  | step {s c : Schedule} : Reachable env s → c ∈ SearchModel.div env s → Reachable env c

/-- The ordering key of a node: `float(-inf)` for preset-satisfying
assignments, otherwise the value of `Node.eval`. -/
inductive OptVal where
  | negInf
  | val (x : Int)
deriving DecidableEq, Repr

/-- `Node.eval`: the schedule eval plus the delta of its latest
assignment, recomputed on the node schedule itself. -/
def nodeEval (env : Layout) (pr : Schedule) (la : ActivityId × SlotId) : Int :=
  pr.eval + SoftConstraints.get_delta_eval env pr la

/-- `Node.compute_opt`, with the node schedule and its unpacked
`latest_assignment`; `compute_opt` is only invoked on non-root nodes,
whose schedules always carry a `latest_assignment`. -/
def computeOpt (env : Layout) (pr : Schedule) (la : ActivityId × SlotId) : OptVal :=
  if (alookup env.PARTASSIGN la.1).isSome ∧ alookup env.PARTASSIGN la.1 = some la.2 then
    OptVal.negInf
  else if (alookup env.SPECIAL_BOOKINGS la.1).isSome ∧ alookup env.SPECIAL_BOOKINGS la.1 = some la.2 then
    OptVal.negInf
  else
    OptVal.val (nodeEval env pr la)

/-- The `opt` field of a node holding schedule `pr`.  The `none` branch is
never taken for nodes built by expansion, whose `latest_assignment` is
always set by `generate_schedules`. -/
def optOf (env : Layout) (pr : Schedule) : OptVal :=
  match pr.latest_assignment with
  | some la => computeOpt env pr la
  | none => OptVal.val pr.eval

/-- The total order used by `Tree.fleaf` via Python float comparison:
`-inf` is below every finite value. -/
def optLe : OptVal → OptVal → Bool
  | OptVal.negInf, _ => true
  | OptVal.val _, OptVal.negInf => false
  | OptVal.val x, OptVal.val y => decide (x ≤ y)

/-- `Tree.fleaf`: sort the children by `opt` in reverse (descending)
order. -/
def fleafSort (env : Layout) (children : List Schedule) : List Schedule :=
  children.mergeSort fun c d => optLe (optOf env d) (optOf env c)

/-- `ScheduleMaker.detect_solvable` (identical in `Scheduler.py`): the
solvability precheck over total slot capacities. -/
def detectSolvable (env : Layout) : Bool :=
  let total_gamemax := (env.GAME_SLOT_IDS.map fun sl => (env.SLOT_ID_TO_OBJ sl).gamemax).sum
  let total_practicemax := (env.PRACTICE_SLOT_IDS.map fun sl => (env.SLOT_ID_TO_OBJ sl).practicemax).sum
  if total_practicemax < env.PRACTICE_IDS.length then false
  else if total_gamemax + 2 < env.GAME_IDS.length then false
  else true

/-- A stack entry of the driver loop: the node schedule plus whether the
node is the root.  When a node is popped, its `sol` flag after
`check_sol` is determined by exactly these data: freshly generated
children all carry `sol = False`, so a just-expanded non-leaf is never
solved, a leaf is solved iff complete, and the root's `check_sol`
returns before setting anything. -/
structure SNode where
  pr : Schedule
  isRoot : Bool

/-- The loop body of `ScheduleMaker.search` (identical in
`Scheduler.py`), as a fuel-indexed function on the explicit stack.
Children are pushed in sorted order onto the Python list, so the one
sorted last is popped first; the returned pair is the final
`current_best` and the number of `Tree.expand` calls performed. -/
def searchLoop (env : Layout) : Nat → List SNode → Option Schedule → Nat → Option Schedule × Nat
  | _, [], best, expansions => (best, expansions)
  | 0, _ :: _, best, expansions => (best, expansions)
  | fuel + 1, node :: rest, best, expansions =>
    let children := SearchModel.div env node.pr
    let sol := children.isEmpty && !node.isRoot && isComplete node.pr
    let best2 :=
      if sol then
        match best with
        | none => some node.pr
        | some b => if node.pr.eval < b.eval then some node.pr else some b
      else best
    let sorted := if children.isEmpty then children else fleafSort env children
    let stack2 := (sorted.map fun c => SNode.mk c false).reverse ++ rest
    searchLoop env fuel stack2 best2 (expansions + 1)

/-- `ScheduleMaker.search`: run the precheck, then the driver loop from a
root node holding the empty schedule.  The fuel bounds the number of loop
iterations; every concrete run below is given enough fuel to terminate on
the empty-stack case. -/
def searchRun (env : Layout) (fuel : Nat) : Option Schedule × Nat :=
  if detectSolvable env then
    searchLoop env fuel [SNode.mk (emptySchedule env) true] none 0
  else
    (none, 0)

/-- The Monday game-slot shortcut strings of
`Layout.pre_parser_initialization`. -/
def MO_GAME_SLOT_SHORTCUTS : List String :=
  ["8:00-9:00", "9:00-10:00", "10:00-11:00", "11:00-12:00", "12:00-13:00",
   "13:00-14:00", "14:00-15:00", "15:00-16:00", "16:00-17:00", "17:00-18:00",
   "18:00-19:00", "19:00-20:00", "20:00-21:00"]

/-- The Tuesday game-slot shortcut strings. -/
def TU_GAME_SLOT_SHORTCUTS : List String :=
  ["8:00-9:30", "9:30-11:00", "11:00-12:30", "12:30-14:00", "14:00-15:30",
   "15:30-17:00", "17:00-18:30", "18:30-20:00"]

/-- The Monday practice-slot shortcut strings. -/
def MO_PRACTICE_SLOT_SHORTCUTS : List String :=
  ["8:00-9:00", "9:00-10:00", "10:00-11:00", "11:00-12:00", "12:00-13:00",
   "13:00-14:00", "14:00-15:00", "15:00-16:00", "16:00-17:00", "17:00-18:00",
   "18:00-19:00", "19:00-20:00", "20:00-21:00"]

/-- The Tuesday practice-slot shortcut strings. -/
def TU_PRACTICE_SLOT_SHORTCUTS : List String :=
  ["8:00-9:00", "9:00-10:00", "10:00-11:00", "11:00-12:00", "12:00-13:00",
   "13:00-14:00", "14:00-15:00", "15:00-16:00", "16:00-17:00", "17:00-18:00",
   "18:00-19:00", "19:00-20:00", "20:00-21:00"]

/-- The Friday practice-slot shortcut strings. -/
def FR_PRACTICE_SLOT_SHORTCUTS : List String :=
  ["8:00-10:00", "10:00-12:00", "12:00-14:00", "14:00-16:00", "16:00-18:00",
   "18:00-20:00"]

/-- A slot of the fixed weekly grid, as built by the `params` helper of
`Layout.pre_parser_initialization`: the shortcut is split on the dash
into start and end times. -/
structure GridSlot where
  kind : ActivityType
  weekday : Weekday
  start_time : String
  end_time : String
deriving DecidableEq, Repr

/-- The `params` + slot-construction step for one group of shortcuts. -/
def mkGridSlots (kind : ActivityType) (weekday : Weekday) (shortcuts : List String) : List GridSlot :=
  shortcuts.map fun shortcut =>
    { kind := kind
      weekday := weekday
      start_time := String.mk ((splitOnChar '-' shortcut.data).getD 0 [])
      end_time := String.mk ((splitOnChar '-' shortcut.data).getD 1 []) }

/-- `ACTIVITY_SLOTS`: the full grid, in the concatenation order of the
source. -/
def ACTIVITY_SLOTS : List GridSlot :=
  mkGridSlots ActivityType.GAME Weekday.MO MO_GAME_SLOT_SHORTCUTS ++
  mkGridSlots ActivityType.GAME Weekday.TU TU_GAME_SLOT_SHORTCUTS ++
  mkGridSlots ActivityType.PRACTICE Weekday.MO MO_PRACTICE_SLOT_SHORTCUTS ++
  mkGridSlots ActivityType.PRACTICE Weekday.TU TU_PRACTICE_SLOT_SHORTCUTS ++
  mkGridSlots ActivityType.PRACTICE Weekday.FR FR_PRACTICE_SLOT_SHORTCUTS

/-- The id of a grid slot: `(kind, weekday, start_time)`. -/
def gridId (g : GridSlot) : SlotId :=
  (g.kind, g.weekday, g.start_time)

/-- The pairwise overlap test of the initialization loop: same weekday and
the two time intervals share a minute. -/
def overlapCond (a b : GridSlot) : Bool :=
  decide (a.weekday = b.weekday) &&
  !(decide (timeStrToInt b.end_time ≤ timeStrToInt a.start_time) ||
    decide (timeStrToInt a.end_time ≤ timeStrToInt b.start_time))

/-- The final `overlaps` set of a grid slot after the double loop of
`Layout.pre_parser_initialization`: slot `b`'s id was inserted into `a`'s
set when the pair was visited either as `(a, b)` or as `(b, a)`. -/
def overlapsOf (a : GridSlot) : List SlotId :=
  (ACTIVITY_SLOTS.filter fun b => overlapCond a b || overlapCond b a).map gridId

/-- `Printer.print_schedule` line for one placed activity: the id, padded
with spaces to a 30-column field on its right, then the weekday
abbreviation and the start time of its slot.  Python computes
`30 - len(id)` and multiplies the space by it, which yields the empty
string when negative, exactly as truncated `Nat` subtraction does. -/
def printLine (entry : ActivityId × SlotId) : String :=
  entry.1 ++ String.mk (List.replicate (30 - entry.1.length) ' ') ++ ": " ++
    weekdayValue entry.2.2.1 ++ ", " ++ entry.2.2.2

/-- `Printer.print_schedule` as the list of printed lines: the
`Eval-value` header, then one line per entry of the insertion-ordered
`slot_of_each_activity` dict.  `Schedule.getEval` is absent with
`Schedule.py` and is modelled from the spec as returning the running
`eval` total. -/
def printSchedule (s : Schedule) : List String :=
  ("Eval-value: " ++ toString s.eval) :: s.slot_of_each_activity.map printLine

/-- A slot record with zero capacities, the base for the concrete
instances below. -/
def defaultSlot : Slot where
  weekday := Weekday.MO
  start_time := "8:00"
  end_time := "9:00"
  is_evening_slot := false
  gamemax := 0
  gamemin := 0
  practicemax := 0
  practicemin := 0
  overlaps := []

/-- A placeholder activity object for ids outside a concrete instance. -/
def defaultActivity : Activity where
  id := ""
  association := ""
  age := ""
  tier := ""
  division := none
  ACTIVITY_TYPE := ActivityType.GAME

/-- A fully empty problem instance: no activities, no relations, all
weights zero. -/
def baseLayout : Layout where
  SPECIAL_BOOKINGS := []
  PARTASSIGN := []
  NOT_COMPATIBLE := fun _ => []
  UNWANTED := fun _ => []
  PREFERENCES := fun _ => []
  PAIR := fun _ => []
  W_MINFILLED := 0
  W_PREF := 0
  W_PAIR := 0
  W_SECDIFF := 0
  PEN_GAMEMIN := 0
  PEN_PRACTICEMIN := 0
  PEN_NOTPAIRED := 0
  PEN_SECTION := 0
  SLOT_ID_TO_OBJ := fun _ => defaultSlot
  ACTIVITY_ID_TO_OBJ := fun _ => defaultActivity
  GAME_ID_TO_OBJ := fun _ => defaultActivity
  GAME_IDS := []
  PRACTICE_IDS := []
  GAME_SLOT_IDS := []
  PRACTICE_SLOT_IDS := []

/-- The min-filled component of `get_delta_eval`: the two `W_MINFILLED`
weighted summands. -/
def minFilledComponent (env : Layout) (s : Schedule) (la : ActivityId × SlotId) : Int :=
  SoftConstraints.game_min env s la * env.W_MINFILLED +
  SoftConstraints.practice_min env s la * env.W_MINFILLED

/-- The C2 reading of the min-filled component, following the words of the
spec: minus the unit penalty exactly when the slot's population after
placing the candidate is still below the slot's min, and 0 otherwise. -/
def minFilledSpecPost (env : Layout) (s : Schedule) (la : ActivityId × SlotId) : Int :=
  let child := SearchModel.mkChild env s la
  let post := (child.assignments la.2).length
  if la.2.1 = ActivityType.GAME then
    (if post < (env.SLOT_ID_TO_OBJ la.2).gamemin then -env.PEN_GAMEMIN else 0) * env.W_MINFILLED
  else
    (if post < (env.SLOT_ID_TO_OBJ la.2).practicemin then -env.PEN_PRACTICEMIN else 0) * env.W_MINFILLED

/-- A game slot id used by the concrete instances. -/
def gslG : SlotId := (ActivityType.GAME, Weekday.MO, "8:00")

/-- Instance for the C2 counterexample: one game, one game slot with
`gamemin = 1`, unit min-filled weights. -/
def envC2 : Layout :=
  { baseLayout with
    W_MINFILLED := 1
    PEN_GAMEMIN := 1
    SLOT_ID_TO_OBJ := fun _ => { defaultSlot with gamemax := 2, gamemin := 1 }
    GAME_IDS := ["G1"]
    GAME_SLOT_IDS := [gslG] }

/-- Claim C2, counterexample: placing the first game into a slot with
`gamemin = 1` yields a min-filled delta component of `-1`, although the
post-assignment population equals the min, where the claimed
post-assignment reading yields 0. -/
theorem c2_counterexample :
    minFilledComponent envC2 (emptySchedule envC2) ("G1", gslG) = -1 ∧
    minFilledSpecPost envC2 (emptySchedule envC2) ("G1", gslG) = 0 ∧
    ((SearchModel.mkChild envC2 (emptySchedule envC2) ("G1", gslG)).assignments gslG).length =
      (envC2.SLOT_ID_TO_OBJ gslG).gamemin := by
  refine ⟨by decide, by decide, by decide⟩

/-- Claim C2 as amended: the expander adds to the child's eval the delta
computed on the pre-assignment (parent) state; the min-filled component
equals minus the unit penalty times `W_MINFILLED` exactly when the slot's
population before placing the candidate is below the slot's min, and 0
otherwise; placing the candidate then grows the slot population by one. -/
theorem c2_amended (env : Layout) (s : Schedule) (a : ActivityId) (sl : SlotId) :
    (SearchModel.mkChild env s (a, sl)).eval =
      s.eval + SoftConstraints.get_delta_eval env s (a, sl) ∧
    minFilledComponent env s (a, sl) =
      (if sl.1 = ActivityType.GAME then
        (if (s.assignments sl).length < (env.SLOT_ID_TO_OBJ sl).gamemin then -env.PEN_GAMEMIN else 0)
       else
        (if (s.assignments sl).length < (env.SLOT_ID_TO_OBJ sl).practicemin then -env.PEN_PRACTICEMIN else 0)) *
        env.W_MINFILLED ∧
    ((SearchModel.mkChild env s (a, sl)).assignments sl).length = (s.assignments sl).length + 1 := by
  refine ⟨rfl, ?_, ?_⟩
  · cases hk : sl.1 with
    | GAME =>
      simp [minFilledComponent, SoftConstraints.game_min, SoftConstraints.practice_min, hk]
    | PRACTICE =>
      simp [minFilledComponent, SoftConstraints.game_min, SoftConstraints.practice_min, hk]
  · simp [SearchModel.mkChild, assign_activity]

/-- Claim C6: for a game slot the capacity predicate passes iff the
current population is strictly below `gamemax` (dually for practice
slots), and a slot of capacity 0 makes the whole hard-constraint check
reject every candidate. -/
theorem c6_capacity (env : Layout) (s : Schedule) (a : ActivityId) (sl : SlotId) :
    (sl.1 = ActivityType.GAME →
      (HardConstraints.game_max env s (a, sl) = true ↔
        (s.assignments sl).length < (env.SLOT_ID_TO_OBJ sl).gamemax)) ∧
    (sl.1 = ActivityType.PRACTICE →
      (HardConstraints.practice_max env s (a, sl) = true ↔
        (s.assignments sl).length < (env.SLOT_ID_TO_OBJ sl).practicemax)) ∧
    ((if sl.1 = ActivityType.GAME then (env.SLOT_ID_TO_OBJ sl).gamemax
      else (env.SLOT_ID_TO_OBJ sl).practicemax) = 0 →
      HardConstraints.check_constraints env s (a, sl) = false) := by
  obtain ⟨k, w, t⟩ := sl
  refine ⟨?_, ?_, ?_⟩
  · intro hk
    subst hk
    simp only [HardConstraints.game_max, ne_eq, not_true_eq_false, if_false, reduceIte]
    split <;> simp <;> omega
  · intro hk
    subst hk
    simp only [HardConstraints.practice_max, ne_eq, not_true_eq_false, if_false, reduceIte]
    split <;> simp <;> omega
  · intro hcap
    have hpass : (if k = ActivityType.GAME then
        HardConstraints.game_max env s (a, (k, w, t))
        else HardConstraints.practice_max env s (a, (k, w, t))) = false := by
      cases k with
      | GAME =>
        simp at hcap
        simp [HardConstraints.game_max, hcap]
      | PRACTICE =>
        simp at hcap
        simp [HardConstraints.practice_max, hcap]
    simp only [HardConstraints.check_constraints, HardConstraints.check_general_constraints]
    rw [hpass]
    simp

/-- Claim C6, witness: with every capacity zero the hard-constraint check
rejects the candidate, and the capacity predicate is exactly the
population test. -/
theorem c6_capacity_witness :
    (HardConstraints.game_max baseLayout (emptySchedule baseLayout) ("G1", gslG) = true ↔
      ((emptySchedule baseLayout).assignments gslG).length <
        (baseLayout.SLOT_ID_TO_OBJ gslG).gamemax) ∧
    HardConstraints.check_constraints baseLayout (emptySchedule baseLayout) ("G1", gslG) = false :=
  ⟨(c6_capacity baseLayout (emptySchedule baseLayout) "G1" gslG).1 rfl,
   (c6_capacity baseLayout (emptySchedule baseLayout) "G1" gslG).2.2 (by decide)⟩

/-- Claim C7: the G2 overlap predicate rejects exactly when some activity
already assigned to an overlapping slot shares the full
`(association, age, tier, division)` tuple with the candidate and the two
are not both practices. -/
theorem c7_gp_same_slot (env : Layout) (s : Schedule) (a : ActivityId) (sl : SlotId) :
    HardConstraints.gp_same_slot env s (a, sl) = false ↔
      ∃ oSl ∈ (env.SLOT_ID_TO_OBJ sl).overlaps, ∃ b ∈ s.assignments oSl,
        ¬((env.ACTIVITY_ID_TO_OBJ a).ACTIVITY_TYPE = ActivityType.PRACTICE ∧
          (env.ACTIVITY_ID_TO_OBJ b).ACTIVITY_TYPE = ActivityType.PRACTICE) ∧
        (env.ACTIVITY_ID_TO_OBJ a).association = (env.ACTIVITY_ID_TO_OBJ b).association ∧
        (env.ACTIVITY_ID_TO_OBJ a).age = (env.ACTIVITY_ID_TO_OBJ b).age ∧
        (env.ACTIVITY_ID_TO_OBJ a).tier = (env.ACTIVITY_ID_TO_OBJ b).tier ∧
        (env.ACTIVITY_ID_TO_OBJ a).division = (env.ACTIVITY_ID_TO_OBJ b).division := by
  have hchar : ∀ b : ActivityId,
      (if (env.ACTIVITY_ID_TO_OBJ a).ACTIVITY_TYPE = ActivityType.PRACTICE ∧
          (env.ACTIVITY_ID_TO_OBJ b).ACTIVITY_TYPE = ActivityType.PRACTICE then true
        else
          !(decide ((env.ACTIVITY_ID_TO_OBJ a).association = (env.ACTIVITY_ID_TO_OBJ b).association) &&
            decide ((env.ACTIVITY_ID_TO_OBJ a).age = (env.ACTIVITY_ID_TO_OBJ b).age) &&
            decide ((env.ACTIVITY_ID_TO_OBJ a).tier = (env.ACTIVITY_ID_TO_OBJ b).tier) &&
            decide ((env.ACTIVITY_ID_TO_OBJ a).division = (env.ACTIVITY_ID_TO_OBJ b).division))) = true ↔
        (¬((env.ACTIVITY_ID_TO_OBJ a).ACTIVITY_TYPE = ActivityType.PRACTICE ∧
            (env.ACTIVITY_ID_TO_OBJ b).ACTIVITY_TYPE = ActivityType.PRACTICE) →
          ¬((env.ACTIVITY_ID_TO_OBJ a).association = (env.ACTIVITY_ID_TO_OBJ b).association ∧
            (env.ACTIVITY_ID_TO_OBJ a).age = (env.ACTIVITY_ID_TO_OBJ b).age ∧
            (env.ACTIVITY_ID_TO_OBJ a).tier = (env.ACTIVITY_ID_TO_OBJ b).tier ∧
            (env.ACTIVITY_ID_TO_OBJ a).division = (env.ACTIVITY_ID_TO_OBJ b).division)) := by
    intro b
    by_cases hpp : (env.ACTIVITY_ID_TO_OBJ a).ACTIVITY_TYPE = ActivityType.PRACTICE ∧
        (env.ACTIVITY_ID_TO_OBJ b).ACTIVITY_TYPE = ActivityType.PRACTICE
    · simp [hpp]
    · simp only [hpp, if_false, Bool.not_eq_true']
      simp only [Bool.and_eq_false_iff, decide_eq_false_iff_not]
      constructor
      · intro h _
        tauto
      · intro h
        tauto
  rw [← Bool.not_eq_true]
  simp only [HardConstraints.gp_same_slot, List.all_eq_true]
  simp only [hchar]
  push_neg
  simp only [and_assoc]

/-- Claim C10: `check_constraints` fails with a `TypeError` on a slot id
whose first component is neither `GAME` nor `PRACTICE` — uniformly in the
schedule and instance, i.e. before any constraint predicate can act — and
returns an ordinary boolean on every well-formed slot id. -/
theorem c10_raw_type_check (env env2 : Layout) (s s2 : Schedule) (a : ActivityId)
    (w : Weekday) (t : String) (o : String) :
    HardConstraints.check_constraints_raw env s a (HardConstraints.RawTag.other o, w, t) =
      Except.error "TypeError: Activity must be of type Game or Practice." ∧
    HardConstraints.check_constraints_raw env s a (HardConstraints.RawTag.other o, w, t) =
      HardConstraints.check_constraints_raw env2 s2 a (HardConstraints.RawTag.other o, w, t) ∧
    HardConstraints.check_constraints_raw env s a (HardConstraints.RawTag.game, w, t) =
      Except.ok (HardConstraints.check_constraints env s (a, (ActivityType.GAME, w, t))) ∧
    HardConstraints.check_constraints_raw env s a (HardConstraints.RawTag.practice, w, t) =
      Except.ok (HardConstraints.check_constraints env s (a, (ActivityType.PRACTICE, w, t))) :=
  ⟨rfl, rfl, rfl, rfl⟩

/-- Decomposition of membership in `SearchModel.div`: every child is
`mkChild` of some enumerated assignment. -/
theorem mem_div {env : Layout} {s c : Schedule} (h : c ∈ SearchModel.div env s) :
    ∃ p ∈ SearchModel.divAssignments env s, c = SearchModel.mkChild env s p := by
  simp only [SearchModel.div, SearchModel.generate_schedules, List.mem_map] at h
  obtain ⟨p, hp, he⟩ := h
  exact ⟨p, hp, he.symm⟩

/-- The preset condition of `Node.compute_opt`: the latest assignment
matches a `PARTASSIGN` or a `SPECIAL_BOOKINGS` entry. -/
def presetMatch (env : Layout) (la : ActivityId × SlotId) : Prop :=
  alookup env.PARTASSIGN la.1 = some la.2 ∨ alookup env.SPECIAL_BOOKINGS la.1 = some la.2

instance (env : Layout) (la : ActivityId × SlotId) : Decidable (presetMatch env la) := by
  unfold presetMatch
  infer_instance

/-- The game activity of the C3 counterexample instance. -/
def gameG1 : Activity where
  id := "G1"
  association := "A"
  age := "U10"
  tier := "T2"
  division := none
  ACTIVITY_TYPE := ActivityType.GAME

/-- Instance for the C3 counterexample: a single game with a preference of
value 5 for the single game slot, `W_PREF = 1`, no presets. -/
def envC3 : Layout :=
  { baseLayout with
    W_PREF := 1
    PREFERENCES := fun a => if a = "G1" then [(gslG, 5)] else []
    GAME_IDS := ["G1"]
    GAME_SLOT_IDS := [gslG]
    SLOT_ID_TO_OBJ := fun _ => { defaultSlot with gamemax := 1 }
    ACTIVITY_ID_TO_OBJ := fun _ => gameG1
    GAME_ID_TO_OBJ := fun _ => gameG1 }

/-- The single child produced by expanding the empty schedule of `envC3`. -/
def childC3 : Schedule :=
  SearchModel.mkChild envC3 (emptySchedule envC3) ("G1", gslG)

/-- Claim C3, counterexample: the child created for the non-preset
assignment `("G1", gslG)` has `eval = -5`, but its ordering key is
`val (-10)`, because `Node.compute_opt` adds `get_delta_eval` a second
time, evaluated on the post-assignment child state — not the child's
`eval` field as the claim states. -/
theorem c3_counterexample :
    childC3 ∈ SearchModel.div envC3 (emptySchedule envC3) ∧
    childC3.latest_assignment = some ("G1", gslG) ∧
    ¬presetMatch envC3 ("G1", gslG) ∧
    childC3.eval = -5 ∧
    computeOpt envC3 childC3 ("G1", gslG) = OptVal.val (-10) := by
  refine ⟨?_, rfl, by decide, by decide, by decide⟩
  rw [show SearchModel.div envC3 (emptySchedule envC3) = [childC3] from rfl]
  exact List.mem_singleton_self childC3

/-- Claim C3 as amended: every child node carries its assignment as
`latest_assignment`; on a preset match the ordering key is `-inf`, and
otherwise it is the child's `eval` plus `get_delta_eval` recomputed on
the post-assignment child schedule (a double count of the latest delta),
not the `eval` field alone. -/
theorem c3_amended (env : Layout) (s c : Schedule) (hc : c ∈ SearchModel.div env s) :
    ∃ a sl, c.latest_assignment = some (a, sl) ∧
      (presetMatch env (a, sl) → computeOpt env c (a, sl) = OptVal.negInf) ∧
      (¬presetMatch env (a, sl) →
        computeOpt env c (a, sl) =
          OptVal.val (c.eval + SoftConstraints.get_delta_eval env c (a, sl))) := by
  obtain ⟨p, hp, rfl⟩ := mem_div hc
  obtain ⟨a, sl⟩ := p
  refine ⟨a, sl, rfl, ?_, ?_⟩
  · intro hpre
    unfold computeOpt
    rcases hpre with h | h
    · rw [if_pos ⟨by simp [h], h⟩]
    · by_cases hpa : (alookup env.PARTASSIGN a).isSome ∧ alookup env.PARTASSIGN a = some sl
      · rw [if_pos hpa]
      · rw [if_neg hpa, if_pos ⟨by simp [h], h⟩]
  · intro hnp
    rw [presetMatch, not_or] at hnp
    unfold computeOpt
    rw [if_neg (fun hh => hnp.1 hh.2), if_neg (fun hh => hnp.2 hh.2)]
    rfl

/-- Claim C3, witness for the amended theorem: the concrete child of the
one-game preference instance. -/
theorem c3_witness :
    ∃ a sl, childC3.latest_assignment = some (a, sl) ∧
      (presetMatch envC3 (a, sl) → computeOpt envC3 childC3 (a, sl) = OptVal.negInf) ∧
      (¬presetMatch envC3 (a, sl) →
        computeOpt envC3 childC3 (a, sl) =
          OptVal.val (childC3.eval + SoftConstraints.get_delta_eval envC3 childC3 (a, sl))) :=
  c3_amended envC3 (emptySchedule envC3) childC3 (by
    rw [show SearchModel.div envC3 (emptySchedule envC3) = [childC3] from rfl]
    exact List.mem_singleton_self childC3)

/-- The C9 reading of an output line, following the words of the spec:
the activity id left-padded — spaces on the left — to a 30-column field,
then the separator, weekday abbreviation and start time. -/
def printLineSpecLeftPad (entry : ActivityId × SlotId) : String :=
  String.mk (List.replicate (30 - entry.1.length) ' ') ++ entry.1 ++ ": " ++
    weekdayValue entry.2.2.1 ++ ", " ++ entry.2.2.2

/-- A complete one-assignment schedule handed to the printer in the C9
counterexample. -/
def schedC9 : Schedule where
  assignments := fun sl => if sl = gslG then ["G1"] else []
  slot_of_each_activity := [("G1", gslG)]
  remaining_games := []
  remaining_practices := []
  vacant_game_slots := []
  vacant_practice_slots := []
  eval := 0
  latest_assignment := some ("G1", gslG)

/-- Claim C9, counterexample: the printer emits the activity id first and
the padding spaces after it (a left-justified 30-column field), not the id
left-padded with spaces as the claim reads. -/
theorem c9_counterexample :
    printSchedule schedC9 ≠ ["Eval-value: 0", printLineSpecLeftPad ("G1", gslG)] ∧
    printSchedule schedC9 = ["Eval-value: 0", printLine ("G1", gslG)] := by
  refine ⟨by decide, by decide⟩

/-- Claim C9 as amended: the printed output is the `Eval-value` header
followed by one line per assigned activity, each line being the activity
id padded on the right with spaces to a 30-column field, then the
separator, the weekday abbreviation (MO, TU or FR) and the slot's
start-time string. -/
theorem c9_amended (s : Schedule) :
    printSchedule s =
      ("Eval-value: " ++ toString s.eval) :: s.slot_of_each_activity.map printLine ∧
    (∀ a : ActivityId, ∀ sl : SlotId,
      printLine (a, sl) =
        a ++ String.mk (List.replicate (30 - a.length) ' ') ++ ": " ++
          weekdayValue sl.2.1 ++ ", " ++ sl.2.2) ∧
    (∀ a : ActivityId, a.length ≤ 30 →
      (a ++ String.mk (List.replicate (30 - a.length) ' ')).length = 30) := by
  refine ⟨rfl, fun a sl => rfl, fun a ha => ?_⟩
  simp [String.length_append]
  omega

/-- Claim C9, witness for the amended theorem at the concrete
one-assignment schedule. -/
theorem c9_witness :
    printSchedule schedC9 =
      ("Eval-value: " ++ toString schedC9.eval) :: schedC9.slot_of_each_activity.map printLine ∧
    ("G1" ++ String.mk (List.replicate (30 - ("G1" : String).length) ' ')).length = 30 :=
  ⟨(c9_amended schedC9).1, (c9_amended schedC9).2.2 "G1" (by decide)⟩

/-- Instance for the C4 failing input: no games and no practices at all. -/
def envC4 : Layout := baseLayout

/-- Claim C4, code divergence: on the empty instance the root schedule is
already complete with `eval = 0` and the precheck passes, yet the search
pops and expands the root once and returns no solution, because
`Node.check_sol` returns immediately for the parentless root and never
marks it solved. -/
theorem c4_bug_empty_instance :
    isComplete (emptySchedule envC4) = true ∧
    (emptySchedule envC4).eval = 0 ∧
    detectSolvable envC4 = true ∧
    (searchRun envC4 2).1 = none ∧
    (searchRun envC4 2).2 = 1 := by
  refine ⟨rfl, rfl, rfl, rfl, rfl⟩

/-- The number of expansions already performed never decreases across the
driver loop. -/
theorem searchLoop_count_le (env : Layout) :
    ∀ (fuel : Nat) (stack : List SNode) (best : Option Schedule) (n : Nat),
      n ≤ (searchLoop env fuel stack best n).2 := by
  intro fuel
  induction fuel with
  | zero =>
    intro stack best n
    cases stack <;> simp [searchLoop]
  | succ f ih =>
    intro stack best n
    cases stack with
    | nil => simp [searchLoop]
    | cons node rest =>
      calc n ≤ n + 1 := Nat.le_succ n
        _ ≤ _ := ih _ _ (n + 1)

/-- Claim C5: the search returns null with zero expansions exactly when
the precheck fails — that is, when there are more practices than total
practice capacity or more games than total game capacity plus 2 — and
when the precheck passes at least the root node is expanded. -/
theorem c5_precheck (env : Layout) (fuel : Nat) :
    (detectSolvable env = false ↔
      ((env.PRACTICE_SLOT_IDS.map fun sl => (env.SLOT_ID_TO_OBJ sl).practicemax).sum <
          env.PRACTICE_IDS.length ∨
       (env.GAME_SLOT_IDS.map fun sl => (env.SLOT_ID_TO_OBJ sl).gamemax).sum + 2 <
          env.GAME_IDS.length)) ∧
    (detectSolvable env = false → searchRun env fuel = (none, 0)) ∧
    (detectSolvable env = true → 1 ≤ (searchRun env (fuel + 1)).2) := by
  refine ⟨?_, ?_, ?_⟩
  · unfold detectSolvable
    simp only []
    split
    · simp_all
    · split
      · simp_all
      · simp_all
  · intro h
    simp [searchRun, h]
  · intro h
    simp only [searchRun, h, if_true]
    rw [searchLoop]
    calc 1 ≤ 0 + 1 := Nat.le_refl 1
      _ ≤ _ := searchLoop_count_le env fuel _ _ (0 + 1)

/-- Instance whose precheck fails: one practice, no practice slots. -/
def envC5bad : Layout := { baseLayout with PRACTICE_IDS := ["P1"] }

/-- Claim C5, witness: the failing instance returns null with zero
expansions; the passing empty instance expands at least the root. -/
theorem c5_witness :
    searchRun envC5bad 3 = (none, 0) ∧ 1 ≤ (searchRun baseLayout 3).2 :=
  ⟨(c5_precheck envC5bad 3).2.1 (by decide), (c5_precheck baseLayout 2).2.2 (by decide)⟩

/-- Every grid slot has a positive-length time interval. -/
theorem gridTimesOk : ∀ g ∈ ACTIVITY_SLOTS, timeStrToInt g.start_time < timeStrToInt g.end_time := by
  decide

/-- The 53 grid slot ids are pairwise distinct. -/
theorem gridIdsNodup : (ACTIVITY_SLOTS.map gridId).Nodup := by
  decide

/-- Characterization of membership in a slot's final overlap set. -/
theorem mem_overlapsOf {a : GridSlot} {i : SlotId} :
    i ∈ overlapsOf a ↔
      ∃ b, (b ∈ ACTIVITY_SLOTS ∧ (overlapCond a b = true ∨ overlapCond b a = true)) ∧
        gridId b = i := by
  simp [overlapsOf, List.mem_map, List.mem_filter]

/-- Claim C8: after grid initialization the overlap relation is reflexive
(every slot overlaps itself), symmetric, and confined to a single
weekday (an overlap-set member always carries the owner's weekday). -/
theorem c8_overlap_relation :
    (∀ a ∈ ACTIVITY_SLOTS, gridId a ∈ overlapsOf a) ∧
    (∀ a ∈ ACTIVITY_SLOTS, ∀ b ∈ ACTIVITY_SLOTS,
      (gridId b ∈ overlapsOf a ↔ gridId a ∈ overlapsOf b)) ∧
    (∀ a : GridSlot, ∀ i ∈ overlapsOf a, i.2.1 = a.weekday) := by
  refine ⟨?_, ?_, ?_⟩
  · intro a ha
    have hlt := gridTimesOk a ha
    refine mem_overlapsOf.mpr ⟨a, ⟨ha, Or.inl ?_⟩, rfl⟩
    simp [overlapCond]
    omega
  · intro a ha b hb
    constructor
    · intro h
      obtain ⟨e, ⟨he, hcond⟩, hid⟩ := mem_overlapsOf.mp h
      have heb : e = b := List.inj_on_of_nodup_map gridIdsNodup he hb hid
      subst heb
      exact mem_overlapsOf.mpr ⟨a, ⟨ha, hcond.symm⟩, rfl⟩
    · intro h
      obtain ⟨e, ⟨he, hcond⟩, hid⟩ := mem_overlapsOf.mp h
      have hea : e = a := List.inj_on_of_nodup_map gridIdsNodup he ha hid
      subst hea
      exact mem_overlapsOf.mpr ⟨b, ⟨hb, hcond.symm⟩, rfl⟩
  · intro a i hi
    obtain ⟨e, ⟨he, hcond⟩, hid⟩ := mem_overlapsOf.mp hi
    subst hid
    simp only [overlapCond, Bool.and_eq_true, decide_eq_true_eq] at hcond
    rcases hcond with ⟨hwd, _⟩ | ⟨hwd, _⟩
    · exact hwd.symm
    · exact hwd

/-- The first Monday game slot, used to witness C8. -/
def gridSlotA : GridSlot where
  kind := ActivityType.GAME
  weekday := Weekday.MO
  start_time := "8:00"
  end_time := "9:00"

/-- The first Monday practice slot (same interval, different kind), used
to witness C8. -/
def gridSlotB : GridSlot where
  kind := ActivityType.PRACTICE
  weekday := Weekday.MO
  start_time := "8:00"
  end_time := "9:00"

/-- Claim C8, witness at two concrete grid slots. -/
theorem c8_overlap_relation_witness :
    gridId gridSlotA ∈ overlapsOf gridSlotA ∧
    (gridId gridSlotB ∈ overlapsOf gridSlotA ↔ gridId gridSlotA ∈ overlapsOf gridSlotB) ∧
    (gridId gridSlotB).2.1 = gridSlotA.weekday :=
  ⟨c8_overlap_relation.1 gridSlotA (by decide),
   c8_overlap_relation.2.1 gridSlotA (by decide) gridSlotB (by decide),
   c8_overlap_relation.2.2 gridSlotA (gridId gridSlotB)
     (c8_overlap_relation.2.1 gridSlotA (by decide) gridSlotB (by decide) |>.mpr
       (mem_overlapsOf.mpr ⟨gridSlotA, ⟨by decide, Or.inl (by decide)⟩, rfl⟩))⟩

/-- A hit in the left part of an association list survives appending. -/
theorem alookup_append_some {α β : Type} [DecidableEq α] {l : List (α × β)} {a : α} {x : β}
    (l2 : List (α × β)) (h : alookup l a = some x) : alookup (l ++ l2) a = some x := by
  induction l with
  | nil => simp [alookup] at h
  | cons p rest ih =>
    obtain ⟨k, v⟩ := p
    simp only [alookup, List.cons_append] at h ⊢
    by_cases hak : a = k
    · rw [if_pos hak] at h ⊢
      exact h
    · rw [if_neg hak] at h ⊢
      exact ih h

/-- A miss in the left part of an association list defers to the right. -/
theorem alookup_append_none {α β : Type} [DecidableEq α] {l : List (α × β)} {a : α}
    (l2 : List (α × β)) (h : alookup l a = none) : alookup (l ++ l2) a = alookup l2 a := by
  induction l with
  | nil => simp
  | cons p rest ih =>
    obtain ⟨k, v⟩ := p
    simp only [alookup, List.cons_append] at h ⊢
    by_cases hak : a = k
    · rw [if_pos hak] at h
      exact absurd h (by simp)
    · rw [if_neg hak] at h ⊢
      exact ih h

/-- `mkChild` appends the new pair to the inverse-assignment dict. -/
theorem mkChild_slot_of (env : Layout) (s : Schedule) (a : ActivityId) (sl : SlotId) :
    (SearchModel.mkChild env s (a, sl)).slot_of_each_activity =
      s.slot_of_each_activity ++ [(a, sl)] := rfl

/-- `mkChild` only erases from the remaining practices. -/
theorem mkChild_remaining_practices (env : Layout) (s : Schedule) (a : ActivityId) (sl : SlotId) :
    (SearchModel.mkChild env s (a, sl)).remaining_practices =
      s.remaining_practices.erase a := rfl

/-- Where an enumerated assignment can come from: a remaining game — at
its booked slot when it is a `SPECIAL_BOOKINGS` key, at a vacant game slot
otherwise — or a remaining practice at a vacant practice slot. -/
theorem mem_divAssignments {env : Layout} {s : Schedule} {a : ActivityId} {sl : SlotId}
    (h : (a, sl) ∈ SearchModel.divAssignments env s) :
    (a ∈ s.remaining_games ∧
      (alookup env.SPECIAL_BOOKINGS a = some sl ∨
       (alookup env.SPECIAL_BOOKINGS a = none ∧ sl ∈ s.vacant_game_slots))) ∨
    (a ∈ s.remaining_practices ∧ sl ∈ s.vacant_practice_slots) := by
  simp only [SearchModel.divAssignments, List.mem_append, List.mem_flatMap] at h
  rcases h with ⟨g, hg, hmem⟩ | ⟨p, hp, hmem⟩
  · left
    cases hsb : alookup env.SPECIAL_BOOKINGS g with
    | some sl2 =>
      rw [hsb] at hmem
      simp only [List.mem_ite_nil_right, List.mem_singleton, Prod.mk.injEq] at hmem
      obtain ⟨_, h1, h2⟩ := hmem
      subst h1
      subst h2
      exact ⟨hg, Or.inl hsb⟩
    | none =>
      rw [hsb] at hmem
      simp only [List.mem_map, List.mem_filter] at hmem
      obtain ⟨slot, ⟨hslot, _⟩, heq⟩ := hmem
      rw [Prod.mk.injEq] at heq
      obtain ⟨h1, h2⟩ := heq
      subst h1
      subst h2
      exact ⟨hg, Or.inr ⟨hsb, hslot⟩⟩
  · right
    simp only [List.mem_map, List.mem_filter] at hmem
    obtain ⟨slot, ⟨hslot, _⟩, heq⟩ := hmem
    rw [Prod.mk.injEq] at heq
    obtain ⟨h1, h2⟩ := heq
    subst h1
    subst h2
    exact ⟨hp, hslot⟩

/-- Remaining practices of a reachable schedule all come from the
instance's practice list: expansion only ever erases. -/
theorem reachable_practices_sub {env : Layout} {s : Schedule} (h : Reachable env s) :
    ∀ x ∈ s.remaining_practices, x ∈ env.PRACTICE_IDS := by
  induction h with
  | base => intro x hx; exact hx
  | step hr hmem ih =>
    intro x hx
    obtain ⟨p, hp, hc⟩ := mem_div hmem
    obtain ⟨a2, sl2⟩ := p
    subst hc
    rw [mkChild_remaining_practices] at hx
    exact ih x (List.mem_of_mem_erase hx)

/-- Claim C1 as amended: in every reachable schedule, any individual
activity that is a `SPECIAL_BOOKINGS` key and is not one of the
instance's practices — in particular any special-booked game — sits at
its booked slot whenever it is placed.  Other keys of the same instance
may be practices; for those, such as the sentinel practices, the
expander and hard constraints enforce nothing (see the counterexample). -/
theorem c1_amended (env : Layout)
    {s : Schedule} (hs : Reachable env s) (a : ActivityId) (sl booked : SlotId)
    (hnp : a ∉ env.PRACTICE_IDS)
    (hb : alookup env.SPECIAL_BOOKINGS a = some booked)
    (hplaced : slotOf s a = some sl) :
    sl = booked := by
  revert hplaced
  induction hs with
  | base =>
    intro hplaced
    simp [slotOf, emptySchedule, alookup] at hplaced
  | step hr hmem ih =>
    intro hplaced
    obtain ⟨p, hp, hc⟩ := mem_div hmem
    obtain ⟨a2, sl2⟩ := p
    subst hc
    unfold slotOf at hplaced
    rw [mkChild_slot_of] at hplaced
    cases hlook : alookup _ a with
    | some x =>
      rw [alookup_append_some _ hlook] at hplaced
      injection hplaced with hx
      exact ih (by unfold slotOf; rw [hlook, hx])
    | none =>
      rw [alookup_append_none _ hlook] at hplaced
      simp only [alookup] at hplaced
      by_cases ha2 : a = a2
      · rw [if_pos ha2] at hplaced
        injection hplaced with hsl
        subst hsl
        rcases mem_divAssignments hp with ⟨_, hcase⟩ | ⟨hpr, _⟩
        · rcases hcase with hsb | ⟨hnone, _⟩
          · rw [← ha2, hb] at hsb
            injection hsb with h2
            exact h2.symm
          · rw [← ha2, hb] at hnone
            simp at hnone
        · have hmemP := reachable_practices_sub hr a2 hpr
          rw [← ha2] at hmemP
          exact absurd hmemP hnp
      · rw [if_neg ha2] at hplaced
        simp at hplaced

/-- The sentinel practice activity of the C1 counterexample instance. -/
def sentinelP : Activity where
  id := "CMSA U12T1S"
  association := "CMSA"
  age := "U12"
  tier := "T1"
  division := none
  ACTIVITY_TYPE := ActivityType.PRACTICE

/-- A Monday practice slot id. -/
def pslMO : SlotId := (ActivityType.PRACTICE, Weekday.MO, "8:00")

/-- The Tuesday 18:00 practice slot id, the booked slot of the sentinels
in the real `Layout.SPECIAL_BOOKINGS`. -/
def pslTU : SlotId := (ActivityType.PRACTICE, Weekday.TU, "18:00")

/-- Instance for the C1 counterexample: only the sentinel practice, whose
`SPECIAL_BOOKINGS` entry books it to Tuesday 18:00, and two vacant
practice slots. -/
def envC1 : Layout :=
  { baseLayout with
    SPECIAL_BOOKINGS := [("CMSA U12T1S", pslTU)]
    PRACTICE_IDS := ["CMSA U12T1S"]
    PRACTICE_SLOT_IDS := [pslMO, pslTU]
    SLOT_ID_TO_OBJ := fun _ => { defaultSlot with practicemax := 1 }
    ACTIVITY_ID_TO_OBJ := fun _ => sentinelP }

/-- The child schedule placing the sentinel practice at the Monday slot. -/
def childC1 : Schedule :=
  SearchModel.mkChild envC1 (emptySchedule envC1) ("CMSA U12T1S", pslMO)

/-- Claim C1, counterexample: one expansion step from the empty schedule
reaches a schedule in which the sentinel practice `CMSA U12T1S` — a key
of `SPECIAL_BOOKINGS` — is placed at Monday 8:00 instead of its booked
Tuesday 18:00 slot: the expander applies `SPECIAL_BOOKINGS` only to
remaining games, and `special_bookings_constraint` exempts practices. -/
theorem c1_counterexample :
    Reachable envC1 childC1 ∧
    alookup envC1.SPECIAL_BOOKINGS "CMSA U12T1S" = some pslTU ∧
    slotOf childC1 "CMSA U12T1S" = some pslMO ∧
    pslMO ≠ pslTU := by
  refine ⟨Reachable.step Reachable.base ?_, by decide, by decide, by decide⟩
  rw [show SearchModel.div envC1 (emptySchedule envC1) =
      [childC1, SearchModel.mkChild envC1 (emptySchedule envC1) ("CMSA U12T1S", pslTU)] from rfl]
  exact List.mem_cons_self _ _

/-- The special-booked game of the C1 witness instance. -/
def gameSB : Activity where
  id := "SBG"
  association := "CMSA"
  age := "U12"
  tier := "T1"
  division := none
  ACTIVITY_TYPE := ActivityType.GAME

/-- Instance for the C1 witness: one special-booked game together with a
sentinel practice key, as in the real `Layout.SPECIAL_BOOKINGS` — the
amended invariant applies to the game key of such a mixed instance. -/
def envC1W : Layout :=
  { baseLayout with
    SPECIAL_BOOKINGS := [("SBG", gslG), ("CMSA U12T1S", pslTU)]
    GAME_IDS := ["SBG"]
    PRACTICE_IDS := ["CMSA U12T1S"]
    GAME_SLOT_IDS := [gslG]
    PRACTICE_SLOT_IDS := [pslMO, pslTU]
    SLOT_ID_TO_OBJ := fun sl =>
      if sl.1 = ActivityType.GAME then { defaultSlot with gamemax := 1 }
      else { defaultSlot with practicemax := 1 }
    ACTIVITY_ID_TO_OBJ := fun a => if a = "SBG" then gameSB else sentinelP
    GAME_ID_TO_OBJ := fun _ => gameSB }

/-- The child schedule placing the special-booked game of the mixed
instance. -/
def childC1W : Schedule :=
  SearchModel.mkChild envC1W (emptySchedule envC1W) ("SBG", gslG)

/-- Claim C1, witness for the amended theorem: in a reachable schedule of
an instance whose `SPECIAL_BOOKINGS` holds both a game key and a sentinel
practice key, the placed game key sits at its booked slot. -/
theorem c1_witness :
    slotOf childC1W "SBG" = some gslG ∧ gslG = gslG :=
  ⟨by decide,
   c1_amended envC1W
     (Reachable.step Reachable.base (by
       rw [show SearchModel.div envC1W (emptySchedule envC1W) =
           [childC1W,
            SearchModel.mkChild envC1W (emptySchedule envC1W) ("CMSA U12T1S", pslMO),
            SearchModel.mkChild envC1W (emptySchedule envC1W) ("CMSA U12T1S", pslTU)] from rfl]
       exact List.mem_cons_self _ _))
     "SBG" gslG gslG (by decide) (by decide) (by decide)⟩
